import Mathlib

/-!
Verification of the favorability progression engine of the dating-chatbot
backend (src/Desktop/7755/backend/main.py) against its design document.

The pure rules that live in `main.py` (level thresholds in `get_analytics`,
the HTTP translation of failures, the derived profile/statistics fields)
are embedded directly from that file.  The `ConversationManager` class
(backend/conversation_manager.py) is imported by `main.py` but its source
is not part of this snapshot; its operations are modelled from the design
document where needed and marked as such.
-/

namespace DatingChatbot

/-- Error taxonomy of the core (design document section 7). -/
inductive Err where
  | notFound
  | upstreamUnavailable
  | persistenceError
deriving DecidableEq, Repr

/-- A stored chat message.  `date` models `timestamp.date()` as an integer
day number (only date differences are ever taken in `main.py`). -/
structure Message where
  speaker_name : String
  message_content : String
  favorability_level : ℕ
  date : ℤ
deriving DecidableEq, Repr

/-- The per-conversation favorability record (`favorability.current_level`,
`favorability.message_count`, `favorability.last_updated` in `main.py`). -/
structure FavorabilityState where
  current_level : ℕ
  message_count : ℕ
  last_updated : ℤ
deriving DecidableEq, Repr

/-- Favorability level as a function of a message count, embedded from
`get_analytics` (src/Desktop/7755/backend/main.py lines 700-705):
`if i >= 50: level = 3` / `elif i >= 20: level = 2` / `else: level = 1`. -/
def levelOfCount (i : ℕ) : ℕ :=
  if 50 ≤ i then 3
  else if 20 ≤ i then 2
  else 1

/-- Modelled from the spec: the milestone set of `FavorabilityTracker`
(design document section 4.1; the same five counts key the milestone texts
in the `/ui2` script in `main.py` lines 1516-1522).  The tracker itself,
`backend/conversation_manager.py`, is missing from this snapshot. -/
def milestones : List ℕ := [50, 100, 200, 500, 1000]

/-- Modelled from the spec: the anniversary set of `FavorabilityTracker`
(design document section 4.1; the same four day counts key the anniversary
texts in the `/ui2` script in `main.py` lines 1533-1538). -/
def anniversaries : List ℕ := [7, 30, 100, 365]

/-- The payload returned by one `record_message` call. -/
structure FavorabilityUpdate where
  new_level : ℕ
  level_increased : Bool
  message_count : ℕ
  milestone_reached : Bool
  milestone_number : Option ℕ
  anniversary_reached : Bool
  anniversary_days : Option ℕ
deriving DecidableEq, Repr

/-- Modelled from the spec: `FavorabilityTracker.record_message` (design
document section 4.1) lives in `backend/conversation_manager.py`, which is
missing from this snapshot.  It increments `message_count`, recomputes the
level from the updated count with the thresholds of `levelOfCount`, and
recomputes the milestone and anniversary flags from the running values.
`ageDays` is the conversation age in whole days since the first message,
`now` the timestamp stored into `last_updated`. -/
def recordMessage (st : FavorabilityState) (ageDays : ℕ) (now : ℤ) :
    FavorabilityState × FavorabilityUpdate :=
  let newCount := st.message_count + 1
  let newLevel := levelOfCount newCount
  ({ current_level := newLevel, message_count := newCount, last_updated := now },
   { new_level := newLevel,
     level_increased := decide (st.current_level < newLevel),
     message_count := newCount,
     milestone_reached := decide (newCount ∈ milestones),
     milestone_number := if newCount ∈ milestones then some newCount else none,
     anniversary_reached := decide (ageDays ∈ anniversaries),
     anniversary_days := if ageDays ∈ anniversaries then some ageDays else none })

/-- Modelled from the spec: `record_message` on a repository entry fails
with `NotFound` when the conversation's favorability record is absent
(design document sections 4.1 and 7). -/
def recordMessageOpt (st : Option FavorabilityState) (ageDays : ℕ) (now : ℤ) :
    Except Err (FavorabilityState × FavorabilityUpdate) :=
  match st with
  | none => .error .notFound
  | some s => .ok (recordMessage s ageDays now)

/-- The result payload of one completed `send_message` exchange. -/
structure Reply where
  reply : String
  update : FavorabilityUpdate
deriving DecidableEq, Repr

/-- A conversation: its messages in chronological append order together
with its favorability record. -/
structure Conversation where
  messages : List Message
  favorability : FavorabilityState
deriving DecidableEq, Repr

/-- Modelled from the spec: `ConversationManager.send_message` (design
document section 4.2) lives in `backend/conversation_manager.py`, which is
missing from this snapshot.  Steps: resolve the conversation (`NotFound`
when absent, nothing mutated); append the user's message stamped with the
prior level; invoke the remote responder, whose failure aborts the exchange
with `UpstreamUnavailable` leaving only the user-message append; otherwise
run `record_message` once and append the character's reply stamped with the
level after this turn's update.  The returned pair is the conversation
state after the call and the outcome. -/
def sendMessage (conv : Option Conversation) (userName charName text : String)
    (responder : Except Err String) (ageDays : ℕ) (now : ℤ) :
    Option Conversation × Except Err Reply :=
  match conv with
  | none => (none, .error .notFound)
  | some c =>
    let userMsg : Message :=
      { speaker_name := userName, message_content := text,
        favorability_level := c.favorability.current_level, date := now }
    let c1 : Conversation := { c with messages := c.messages ++ [userMsg] }
    match responder with
    | .error _ => (some c1, .error .upstreamUnavailable)
    | .ok replyText =>
      let p := recordMessage c1.favorability ageDays now
      let charMsg : Message :=
        { speaker_name := charName, message_content := replyText,
          favorability_level := p.1.current_level, date := now }
      (some { messages := c1.messages ++ [charMsg], favorability := p.1 },
       .ok { reply := replyText, update := p.2 })

/-- HTTP status of `GET /api/v2/favorability/{character_id}`
(`get_favorability_status`, main.py lines 363-381): 404 when the
favorability record is absent, success otherwise. -/
def getFavorabilityStatusCode (fav : Option FavorabilityState) : ℕ :=
  match fav with
  | none => 404
  | some _ => 200

/-- HTTP status of `POST /api/v2/send-message` (`send_message_v2`, main.py
lines 256-270): the handler returns the result on success and turns every
exception into a 500 response (`except Exception: raise
HTTPException(status_code=500, ...)`). -/
def sendMessageV2StatusCode (result : Except Err Reply) : ℕ :=
  match result with
  | .error _ => 500
  | .ok _ => 200

/-- The `favorability` field of each character entry in
`GET /api/v2/user-characters/{user_id}` (`get_user_characters`, main.py
lines 340-341): `... .current_level if conv_manager.get_favorability(...)
else 1`. -/
def userCharactersFavorability (fav : Option FavorabilityState) : ℕ :=
  match fav with
  | some f => f.current_level
  | none => 1

/-- The `favorability` block of `GET /api/v2/character-profile`
(`get_character_profile`, main.py lines 431-447 and 471-477).  `progress`
is the value before the display rounding `round(progress, 1)`. -/
structure ProfileFavorability where
  current_level : ℕ
  level_name : String
  message_count : ℕ
  progress : ℚ
  next_level_at : Option ℕ
deriving DecidableEq, Repr

/-- Embeds main.py lines 431-447 (the progress computation) together with
lines 471-477 (the reported `current_level` and `message_count`). -/
def characterProfileFavorability (fav : Option FavorabilityState) : ProfileFavorability :=
  match fav with
  | some f =>
    if f.current_level = 1 then
      { current_level := f.current_level, level_name := "陌生期",
        message_count := f.message_count,
        progress := min 100 ((f.message_count : ℚ) / 20 * 100),
        next_level_at := some 20 }
    else if f.current_level = 2 then
      { current_level := f.current_level, level_name := "熟悉期",
        message_count := f.message_count,
        progress := min 100 (((f.message_count : ℚ) - 20) / 30 * 100),
        next_level_at := some 50 }
    else
      { current_level := f.current_level, level_name := "親密期",
        message_count := f.message_count,
        progress := 100,
        next_level_at := none }
  | none =>
      { current_level := 1, level_name := "未知", message_count := 0,
        progress := 0, next_level_at := some 20 }

/-- `GET /api/v2/character-profile` as seen from the favorability data:
404 only when the character is absent (main.py lines 406-407); a missing
favorability record still succeeds (lines 444-447). -/
def characterProfileResult (character : Option Unit) (fav : Option FavorabilityState) :
    Except ℕ ProfileFavorability :=
  match character with
  | none => .error 404
  | some _ => .ok (characterProfileFavorability fav)

/-- The favorability level reported by `GET /api/v2/export-conversation`
(main.py lines 563-566): `favorability.current_level if favorability else 1`. -/
def exportFavorabilityLevel (fav : Option FavorabilityState) : ℕ :=
  match fav with
  | some f => f.current_level
  | none => 1

/-- The message count reported by `GET /api/v2/export-conversation`
(main.py line 566): `favorability.message_count if favorability else 0`. -/
def exportFavorabilityCount (fav : Option FavorabilityState) : ℕ :=
  match fav with
  | some f => f.message_count
  | none => 0

/-- `GET /api/v2/export-conversation` as seen from the favorability data:
404 only when the character is absent (main.py lines 521-522). -/
def exportConversationResult (character : Option Unit) (fav : Option FavorabilityState) :
    Except ℕ (ℕ × ℕ) :=
  match character with
  | none => .error 404
  | some _ => .ok (exportFavorabilityLevel fav, exportFavorabilityCount fav)

/-- The favorability level reported by `GET /api/v2/analytics` (main.py
lines 770-771). -/
def analyticsFavorabilityLevel (fav : Option FavorabilityState) : ℕ :=
  match fav with
  | some f => f.current_level
  | none => 1

/-- The message count reported by `GET /api/v2/analytics` (main.py
line 772). -/
def analyticsFavorabilityCount (fav : Option FavorabilityState) : ℕ :=
  match fav with
  | some f => f.message_count
  | none => 0

/-- `GET /api/v2/analytics` as seen from the favorability data: 404 only
when the character is absent (main.py lines 656-657); with no messages it
returns success with an empty analytics block (lines 665-671), otherwise
success with the favorability defaults of lines 770-772. -/
def analyticsResult (character : Option Unit) (fav : Option FavorabilityState)
    (msgs : List Message) : Except ℕ (Option (ℕ × ℕ)) :=
  match character with
  | none => .error 404
  | some _ =>
    match msgs with
    | [] => .ok none
    | _ :: _ => .ok (some (analyticsFavorabilityLevel fav, analyticsFavorabilityCount fav))

/-- `conversation_days` of `get_character_profile` (main.py lines 424-428):
0 unless the list holds more than one message, else the date difference
between the newest message (head, most-recent-first order) and the oldest
(last) plus 1. -/
def profileConversationDays : List Message → ℤ
  | [] => 0
  | [_] => 0
  | m :: rest => (m.date - (rest.getLastD m).date) + 1

/-- `average_messages_per_day` of `get_character_profile` (main.py
line 485): `round(total_messages / conversation_days, 1) if
conversation_days > 0 else 0`, taken before the display rounding. -/
def profileAvgMessagesPerDay (msgs : List Message) : ℚ :=
  if 0 < profileConversationDays msgs then
    (msgs.length : ℚ) / (profileConversationDays msgs : ℚ)
  else 0

/-- `conversation_days` of `get_analytics` (main.py lines 679-681): the
handler returns early when there are no messages, and otherwise computes
the date difference plus 1 without the more-than-one-message guard of
`get_character_profile`. -/
def analyticsConversationDays : List Message → Option ℤ
  | [] => none
  | m :: rest => some ((m.date - (rest.getLastD m).date) + 1)

/-- `avg_messages_per_day` of `get_analytics` (main.py line 740):
`total_messages / conversation_days if conversation_days > 0 else 0`. -/
def analyticsAvgMessagesPerDay : List Message → ℚ
  | [] => 0
  | m :: rest =>
    if 0 < (m.date - (rest.getLastD m).date) + 1 then
      ((m :: rest).length : ℚ) / (((m.date - (rest.getLastD m).date) + 1 : ℤ) : ℚ)
    else 0

/-- A sample user-side message on day 3, used to instantiate statements on
concrete inputs. -/
def msgUserDay3 : Message :=
  { speaker_name := "u", message_content := "hi", favorability_level := 1, date := 3 }

/-- A sample character-side message on day 5, used to instantiate
statements on concrete inputs. -/
def msgCharDay5 : Message :=
  { speaker_name := "c", message_content := "hey", favorability_level := 1, date := 5 }

/-- Helper: the threshold function is monotone in the count. -/
lemma levelOfCount_mono {m n : ℕ} (h : m ≤ n) : levelOfCount m ≤ levelOfCount n := by
  unfold levelOfCount
  split_ifs <;> omega

/-- Helper: one increment raises the level exactly at the two thresholds. -/
lemma levelOfCount_lt_succ_iff (c : ℕ) :
    levelOfCount c < levelOfCount (c + 1) ↔ (c + 1 = 20 ∨ c + 1 = 50) := by
  unfold levelOfCount
  split_ifs <;> omega

/-- C1: the favorability level derived from a message count is 1 below 20,
2 from 20 up to 49, and 3 from 50 on; in particular 19 ↦ 1, 20 ↦ 2,
49 ↦ 2 and 50 ↦ 3. -/
theorem c1_level_thresholds (c : ℕ) :
    (c < 20 → levelOfCount c = 1) ∧
    (20 ≤ c → c < 50 → levelOfCount c = 2) ∧
    (50 ≤ c → levelOfCount c = 3) ∧
    levelOfCount 19 = 1 ∧ levelOfCount 20 = 2 ∧
    levelOfCount 49 = 2 ∧ levelOfCount 50 = 3 := by
  refine ⟨?_, ?_, ?_, by decide, by decide, by decide, by decide⟩ <;>
    · unfold levelOfCount
      split_ifs <;> omega

/-- Witness for C1 at the four boundary counts. -/
theorem c1_level_thresholds_witness :
    levelOfCount 19 = 1 ∧ levelOfCount 20 = 2 ∧ levelOfCount 49 = 2 ∧ levelOfCount 50 = 3 :=
  ⟨(c1_level_thresholds 19).1 (by decide),
   (c1_level_thresholds 20).2.1 (by decide) (by decide),
   (c1_level_thresholds 49).2.1 (by decide) (by decide),
   (c1_level_thresholds 50).2.2.1 (by decide)⟩

/-- C2: along any sequence of `record_message` calls, `current_level` is a
non-decreasing function of `message_count`: the threshold function is
monotone, and one call never leaves the state with a level below the level
derived from the previous count. -/
theorem c2_level_monotone (st : FavorabilityState) (ageDays : ℕ) (now : ℤ)
    (m n : ℕ) (h : m ≤ n) :
    levelOfCount m ≤ levelOfCount n ∧
    levelOfCount st.message_count ≤ ((recordMessage st ageDays now).1).current_level := by
  constructor
  · exact levelOfCount_mono h
  · simpa [recordMessage] using levelOfCount_mono (Nat.le_succ st.message_count)

/-- Witness for C2 at counts 3 ≤ 25 and a concrete state. -/
theorem c2_level_monotone_witness :
    levelOfCount 3 ≤ levelOfCount 25 ∧
    levelOfCount 19 ≤ ((recordMessage ⟨1, 19, 0⟩ 0 0).1).current_level :=
  c2_level_monotone ⟨1, 19, 0⟩ 0 0 3 25 (by decide)

/-- C3: a `record_message` call reports `milestone_reached` exactly when the
updated count is one of 50, 100, 200, 500 or 1000, and then carries that
count as `milestone_number`; otherwise the number is absent. -/
theorem c3_milestone (st : FavorabilityState) (ageDays : ℕ) (now : ℤ) :
    (((recordMessage st ageDays now).2).milestone_reached = true ↔
      (st.message_count + 1 = 50 ∨ st.message_count + 1 = 100 ∨
       st.message_count + 1 = 200 ∨ st.message_count + 1 = 500 ∨
       st.message_count + 1 = 1000)) ∧
    (((recordMessage st ageDays now).2).milestone_reached = true →
      ((recordMessage st ageDays now).2).milestone_number =
        some ((recordMessage st ageDays now).2).message_count) ∧
    (((recordMessage st ageDays now).2).milestone_reached = false →
      ((recordMessage st ageDays now).2).milestone_number = none) ∧
    ((recordMessage st ageDays now).2).message_count = st.message_count + 1 := by
  refine ⟨?_, ?_, ?_, rfl⟩ <;> simp [recordMessage, milestones] <;> omega

/-- Witness for C3: the call taking the count from 49 to 50 reports the
milestone number 50. -/
theorem c3_milestone_witness :
    ((recordMessage ⟨2, 49, 0⟩ 0 0).2).milestone_number =
      some ((recordMessage ⟨2, 49, 0⟩ 0 0).2).message_count :=
  (c3_milestone ⟨2, 49, 0⟩ 0 0).2.1 (by decide)

/-- C4: a `record_message` call reports `anniversary_reached` exactly when
the conversation age in whole days since its first message is one of 7, 30,
100 or 365, and then carries that age as `anniversary_days`; otherwise the
day count is absent. -/
theorem c4_anniversary (st : FavorabilityState) (ageDays : ℕ) (now : ℤ) :
    (((recordMessage st ageDays now).2).anniversary_reached = true ↔
      (ageDays = 7 ∨ ageDays = 30 ∨ ageDays = 100 ∨ ageDays = 365)) ∧
    (((recordMessage st ageDays now).2).anniversary_reached = true →
      ((recordMessage st ageDays now).2).anniversary_days = some ageDays) ∧
    (((recordMessage st ageDays now).2).anniversary_reached = false →
      ((recordMessage st ageDays now).2).anniversary_days = none) := by
  refine ⟨?_, ?_, ?_⟩ <;> simp [recordMessage, anniversaries] <;> omega

/-- Witness for C4: a conversation exactly 30 days old reports the 30-day
anniversary. -/
theorem c4_anniversary_witness :
    ((recordMessage ⟨1, 5, 0⟩ 30 0).2).anniversary_days = some 30 :=
  (c4_anniversary ⟨1, 5, 0⟩ 30 0).2.1 (by decide)

/-- C5: `level_increased` is true exactly when the new level is strictly
above the level before the call; on a state whose level agrees with the
thresholds it is true exactly when the incremented count lands on 20 or 50,
hence exactly once per threshold crossing along an increasing count
sequence. -/
theorem c5_level_increased (st : FavorabilityState) (ageDays : ℕ) (now : ℤ)
    (hinv : st.current_level = levelOfCount st.message_count) :
    (((recordMessage st ageDays now).2).level_increased = true ↔
      st.current_level < ((recordMessage st ageDays now).2).new_level) ∧
    (((recordMessage st ageDays now).2).level_increased = true ↔
      (st.message_count + 1 = 20 ∨ st.message_count + 1 = 50)) := by
  constructor
  · simp [recordMessage]
  · rw [show (((recordMessage st ageDays now).2).level_increased) =
        decide (st.current_level < levelOfCount (st.message_count + 1)) from rfl]
    rw [hinv]
    simp [levelOfCount_lt_succ_iff]

/-- Witness for C5: the call taking the count from 19 to 20 reports a level
increase, and that is exactly the 20-threshold crossing. -/
theorem c5_level_increased_witness :
    (((recordMessage ⟨1, 19, 0⟩ 0 0).2).level_increased = true ↔
      (1 : ℕ) < ((recordMessage ⟨1, 19, 0⟩ 0 0).2).new_level) ∧
    (((recordMessage ⟨1, 19, 0⟩ 0 0).2).level_increased = true ↔
      ((19 : ℕ) + 1 = 20 ∨ (19 : ℕ) + 1 = 50)) :=
  c5_level_increased ⟨1, 19, 0⟩ 0 0 (by decide)

/-- C6 counterexample: a `NotFound` failure of the send-message operation is
translated by `send_message_v2` into a 500 response, not 404. -/
theorem c6_counterexample :
    sendMessageV2StatusCode (.error .notFound) = 500 ∧ (500 : ℕ) ≠ 404 := by
  exact ⟨rfl, by decide⟩

/-- C6 amended: when the favorability record is absent the favorability
query fails with a 404, and a `send_message` on a missing conversation
fails with `NotFound` creating no state; but the send-message HTTP handler
translates every failure, `NotFound` included, into a 500 response. -/
theorem c6_amended (f : FavorabilityState) (e : Err)
    (userName charName text : String) (responder : Except Err String)
    (ageDays : ℕ) (now : ℤ) :
    getFavorabilityStatusCode none = 404 ∧
    getFavorabilityStatusCode (some f) = 200 ∧
    sendMessage none userName charName text responder ageDays now =
      (none, .error .notFound) ∧
    recordMessageOpt none ageDays now = .error .notFound ∧
    sendMessageV2StatusCode (.error e) = 500 := by
  exact ⟨rfl, rfl, rfl, rfl, rfl⟩

/-- C7: when the remote character-responder call fails, `send_message`
fails with `UpstreamUnavailable`; the favorability record (both count and
level) is unchanged, and the only change to the log is the appended user
message — no character-side message is added and the user message is not
deleted. -/
theorem c7_upstream_failure (c : Conversation) (userName charName text : String)
    (e : Err) (ageDays : ℕ) (now : ℤ) :
    (sendMessage (some c) userName charName text (.error e) ageDays now).2 =
      .error .upstreamUnavailable ∧
    (sendMessage (some c) userName charName text (.error e) ageDays now).1 =
      some { c with messages := c.messages ++
        [{ speaker_name := userName, message_content := text,
           favorability_level := c.favorability.current_level, date := now }] } ∧
    ({ c with messages := c.messages ++
        [{ speaker_name := userName, message_content := text,
           favorability_level := c.favorability.current_level, date := now }] } :
      Conversation).favorability = c.favorability ∧
    (c.messages ++
        [({ speaker_name := userName, message_content := text,
            favorability_level := c.favorability.current_level, date := now } :
          Message)]).take c.messages.length = c.messages ∧
    (c.messages ++
        [({ speaker_name := userName, message_content := text,
            favorability_level := c.favorability.current_level, date := now } :
          Message)]).drop c.messages.length =
      [{ speaker_name := userName, message_content := text,
         favorability_level := c.favorability.current_level, date := now }] := by
  refine ⟨rfl, rfl, rfl, ?_, ?_⟩
  · simp
  · simp

/-- C8: when the character exists but has no favorability record, the
user-characters, character-profile, export-conversation and analytics
endpoints all succeed, defaulting the level to 1 and the message count
to 0, while the dedicated favorability endpoint alone answers 404. -/
theorem c8_missing_record_defaults (m : Message) (msgs : List Message) :
    userCharactersFavorability none = 1 ∧
    characterProfileResult (some ()) none =
      .ok { current_level := 1, level_name := "未知", message_count := 0,
            progress := 0, next_level_at := some 20 } ∧
    exportConversationResult (some ()) none = .ok (1, 0) ∧
    analyticsResult (some ()) none (m :: msgs) = .ok (some (1, 0)) ∧
    getFavorabilityStatusCode none = 404 := by
  exact ⟨rfl, rfl, rfl, rfl, rfl⟩

/-- C9: on any favorability state respecting the threshold invariant of the
data model, the profile's derived fields satisfy: the progress lies in
[0, 100]; at level 1 the next level is at 20 with progress
min(100, count/20*100); at level 2 the next level is at 50 with progress
min(100, (count-20)/30*100); at level 3 the progress is 100 and there is no
next level. -/
theorem c9_progress_fields (f : FavorabilityState)
    (hinv : f.current_level = levelOfCount f.message_count) :
    0 ≤ (characterProfileFavorability (some f)).progress ∧
    (characterProfileFavorability (some f)).progress ≤ 100 ∧
    (f.current_level = 1 →
      (characterProfileFavorability (some f)).next_level_at = some 20 ∧
      (characterProfileFavorability (some f)).progress =
        min 100 ((f.message_count : ℚ) / 20 * 100)) ∧
    (f.current_level = 2 →
      (characterProfileFavorability (some f)).next_level_at = some 50 ∧
      (characterProfileFavorability (some f)).progress =
        min 100 (((f.message_count : ℚ) - 20) / 30 * 100)) ∧
    (f.current_level = 3 →
      (characterProfileFavorability (some f)).progress = 100 ∧
      (characterProfileFavorability (some f)).next_level_at = none) := by
  have h20 : f.current_level = 2 → (20 : ℚ) ≤ (f.message_count : ℚ) := by
    intro h2
    rw [h2] at hinv
    unfold levelOfCount at hinv
    have : 20 ≤ f.message_count := by
      by_contra hlt
      push_neg at hlt
      rw [if_neg (by omega), if_neg (by omega)] at hinv
      omega
    exact_mod_cast this
  simp only [characterProfileFavorability]
  split_ifs with h1 h2
  · refine ⟨le_min (by norm_num) (by positivity), min_le_left _ _, ?_, ?_, ?_⟩
    · exact fun _ => ⟨rfl, rfl⟩
    · intro h; rw [h1] at h; exact absurd h (by norm_num)
    · intro h; rw [h1] at h; exact absurd h (by norm_num)
  · refine ⟨le_min (by norm_num) ?_, min_le_left _ _, ?_, ?_, ?_⟩
    · have := h20 h2
      have hnum : (0 : ℚ) ≤ (f.message_count : ℚ) - 20 := by linarith
      positivity
    · intro h; exact absurd h h1
    · exact fun _ => ⟨rfl, rfl⟩
    · intro h; rw [h2] at h; exact absurd h (by norm_num)
  · refine ⟨by norm_num, by norm_num, ?_, ?_, fun _ => ⟨rfl, rfl⟩⟩
    · intro h; exact absurd h h1
    · intro h; exact absurd h h2

/-- Witness for C9 on the state with level 2 and 30 messages. -/
theorem c9_progress_fields_witness :
    0 ≤ (characterProfileFavorability (some ⟨2, 30, 0⟩)).progress ∧
    (characterProfileFavorability (some ⟨2, 30, 0⟩)).progress ≤ 100 ∧
    ((2 : ℕ) = 1 →
      (characterProfileFavorability (some ⟨2, 30, 0⟩)).next_level_at = some 20 ∧
      (characterProfileFavorability (some ⟨2, 30, 0⟩)).progress =
        min 100 (((30 : ℕ) : ℚ) / 20 * 100)) ∧
    ((2 : ℕ) = 2 →
      (characterProfileFavorability (some ⟨2, 30, 0⟩)).next_level_at = some 50 ∧
      (characterProfileFavorability (some ⟨2, 30, 0⟩)).progress =
        min 100 ((((30 : ℕ) : ℚ) - 20) / 30 * 100)) ∧
    ((2 : ℕ) = 3 →
      (characterProfileFavorability (some ⟨2, 30, 0⟩)).progress = 100 ∧
      (characterProfileFavorability (some ⟨2, 30, 0⟩)).next_level_at = none) :=
  c9_progress_fields ⟨2, 30, 0⟩ (by decide)

/-- C10 counterexample: a conversation holding exactly one message gets
`conversation_days = 1`, not 0, in the analytics statistics. -/
theorem c10_counterexample :
    analyticsConversationDays [msgUserDay3] = some 1 ∧
    some (1 : ℤ) ≠ some (0 : ℤ) := by
  refine ⟨?_, by decide⟩
  simp [analyticsConversationDays]

/-- C10 amended: in the character-profile statistics `conversation_days` is
0 for at most one message and otherwise the inclusive date difference plus
one; in the analytics statistics it is the inclusive date difference plus
one for every non-empty conversation, hence 1 (not 0) for a single message;
in both, the average per day is reported as 0 whenever the day count is not
positive, so the division is never performed with a non-positive divisor. -/
theorem c10_amended (m m2 : Message) (rest msgs : List Message)
    (hlen : msgs.length ≤ 1) :
    profileConversationDays msgs = 0 ∧
    profileConversationDays (m :: m2 :: rest) =
      (m.date - ((m2 :: rest).getLastD m).date) + 1 ∧
    analyticsConversationDays (m :: rest) =
      some ((m.date - (rest.getLastD m).date) + 1) ∧
    analyticsConversationDays [m] = some 1 ∧
    (profileConversationDays msgs ≤ 0 → profileAvgMessagesPerDay msgs = 0) ∧
    (0 < (m.date - (rest.getLastD m).date) + 1 →
      analyticsAvgMessagesPerDay (m :: rest) =
        ((m :: rest).length : ℚ) / (((m.date - (rest.getLastD m).date) + 1 : ℤ) : ℚ)) ∧
    ((m.date - (rest.getLastD m).date) + 1 ≤ 0 →
      analyticsAvgMessagesPerDay (m :: rest) = 0) := by
  refine ⟨?_, rfl, rfl, by simp [analyticsConversationDays], ?_, ?_, ?_⟩
  · match msgs, hlen with
    | [], _ => rfl
    | [_], _ => rfl
  · intro hle
    rw [profileAvgMessagesPerDay, if_neg (by omega)]
  · intro hpos
    rw [analyticsAvgMessagesPerDay, if_pos hpos]
  · intro hle
    rw [analyticsAvgMessagesPerDay, if_neg (by omega)]

/-- Witness for C10 on a two-message conversation spanning days 3 to 5,
with the empty list for the short-conversation part. -/
theorem c10_amended_witness :
    profileConversationDays [] = 0 ∧
    profileConversationDays [msgCharDay5, msgUserDay3] =
      (msgCharDay5.date - (([msgUserDay3]).getLastD msgCharDay5).date) + 1 ∧
    analyticsConversationDays [msgCharDay5] =
      some ((msgCharDay5.date - (([] : List Message).getLastD msgCharDay5).date) + 1) ∧
    analyticsConversationDays [msgCharDay5] = some 1 ∧
    (profileConversationDays ([] : List Message) ≤ 0 →
      profileAvgMessagesPerDay ([] : List Message) = 0) ∧
    (0 < (msgCharDay5.date - (([] : List Message).getLastD msgCharDay5).date) + 1 →
      analyticsAvgMessagesPerDay [msgCharDay5] =
        (([msgCharDay5] : List Message).length : ℚ) /
          (((msgCharDay5.date - (([] : List Message).getLastD msgCharDay5).date) + 1 : ℤ) : ℚ)) ∧
    ((msgCharDay5.date - (([] : List Message).getLastD msgCharDay5).date) + 1 ≤ 0 →
      analyticsAvgMessagesPerDay [msgCharDay5] = 0) :=
  c10_amended msgCharDay5 msgUserDay3 [] [] (by decide)

end DatingChatbot
